import Mathlib

/-!
Shallow embedding of the event-subscription and transaction-confirmation
tracking subsystem of `packages/tasit-action/src/TasitAction.js`
(classes `Subscription`, `TransactionSubscription`, `ContractSubscription`).

Modelling conventions:
* A JS `Map` of event listeners is an insertion-ordered association list
  (`Map.set` replaces in place, `Map.delete` removes the unique entry).
* Listener functions stored in the registry are represented by the
  `ListenerVal` inductive: the raw user callback (stored under `"error"` by
  `_addErrorListener`) or one of the two wrapper closures the module builds
  (`ethersListener` in `#addConfirmationListener` / `#addContractEventListener`),
  which record the captured `once` flag and the wrapped user callback.
* User callbacks are identified by a `Nat` id; their behaviour (return
  normally or throw) is an environment `ListenerEnv`.
* Every operation returns a `StepResult`: the state after the operation
  (JS mutations before a throw persist), the list of observable effects
  (`console.warn`, emitter `on` / `removeListener`, user-listener
  invocations, `setTimeout` arming) in execution order, and the exception
  the operation threw, if any.
-/

/-- A JS `Error` value: its `name` (`"Error"`, `"ReferenceError"`, ...) and
`message`. Template interpolation `${error}` stringifies it as
`name ++ ": " ++ message`. -/
structure JsError where
  name : String
  message : String
deriving DecidableEq, Repr

/-- Builds `new Error(message)`. -/
def mkError (message : String) : JsError := ⟨"Error", message⟩

/-- String conversion used when an error object is interpolated into a
template literal. -/
def jsErrorToString (e : JsError) : String := e.name ++ ": " ++ e.message

/-- A primitive JS value appearing as a contract-event argument. -/
inductive JsArg
  | num (n : Int)
  | str (s : String)
deriving DecidableEq, Repr

/-- An argument the transport passes to a contract-event callback: a
positional event argument, the trailing ethers.js Event metadata object
(carrying the `args` payload array), or `undefined`. -/
inductive TransportArg
  | val (a : JsArg)
  | eventObj (args : List JsArg)
  | undef
deriving DecidableEq, Repr

/-- A message delivered to a user listener:
`{data: {confirmations}}`, `{data: {args}}` (where the `args` field is
`undefined`, modelled `none`, when the popped value has no `args`
property), or `{error, eventName}`. -/
inductive Message
  | confirmation (confirmations : Int)
  | contractEvent (args : Option (List JsArg))
  | error (err : JsError) (eventName : String)
deriving DecidableEq, Repr

/-- A function value stored in the `#eventListeners` map: `user id` is a raw
caller-supplied callback (only ever stored under `"error"`), the two wrapper
constructors are the `ethersListener` closures built by
`#addConfirmationListener` and `#addContractEventListener`. -/
inductive ListenerVal
  | user (id : Nat)
  | confirmationWrapper (once : Bool) (id : Nat)
  | contractWrapper (eventName : String) (once : Bool) (id : Nat)
deriving DecidableEq, Repr

/-- An observable side effect of an operation, in execution order. -/
inductive Effect
  | warn (text : String)
  | transportOn (ethersEventName : String) (lv : ListenerVal)
  | transportRemove (ethersEventName : String) (lv : ListenerVal)
  | invokeListener (id : Nat) (msg : Message)
  | armTimer (delayMillis : Nat)
deriving DecidableEq, Repr

/-- Behaviour of the caller-supplied callbacks: invoking callback `id` with a
message either returns normally (`none`) or throws (`some e`). -/
def ListenerEnv := Nat → Message → Option JsError

/-- Result of running one operation: the state afterwards (mutations made
before a throw persist, as in JS), the effects produced, and the exception
propagated to the caller, if any. -/
structure StepResult (σ : Type) where
  state : σ
  effects : List Effect
  thrown : Option JsError
deriving DecidableEq, Repr

/-- Lookup in the insertion-ordered association list modelling a JS `Map`
(`Map.prototype.get`). -/
def mapGet : List (String × ListenerVal) → String → Option ListenerVal
  | [], _ => none
  | (k, v) :: rest, key => if k = key then some v else mapGet rest key

/-- Update in the insertion-ordered association list (`Map.prototype.set`):
replaces the value in place when the key is present, appends otherwise. -/
def mapSet : List (String × ListenerVal) → String → ListenerVal → List (String × ListenerVal)
  | [], key, v => [(key, v)]
  | (k, w) :: rest, key, v =>
    if k = key then (k, v) :: rest else (k, w) :: mapSet rest key v

/-- Removal from the association list (`Map.prototype.delete`). Keys are
unique (`mapSet` never duplicates), so removing the first occurrence is
exact. -/
def mapDelete : List (String × ListenerVal) → String → List (String × ListenerVal)
  | [], _ => []
  | (k, w) :: rest, key =>
    if k = key then rest else (k, w) :: mapDelete rest key

/-- State of the base `Subscription` class: the `#eventListeners` map. The
`#ethersEventEmitter` reference is external and not owned; interactions with
it appear as `Effect.transportOn` / `Effect.transportRemove`. The source
stores each listener wrapped as `{ listener }`; the one-field record is
elided. -/
structure SubState where
  eventListeners : List (String × ListenerVal)
deriving DecidableEq, Repr

namespace Subscription

/-- Translation of `_toEthersEventName`. -/
def toEthersEventName (eventName : String) : String :=
  if eventName = "confirmation" then "block" else eventName

/-- Translation of `subscribedEventNames`: the map keys in insertion order. -/
def subscribedEventNames (s : SubState) : List String :=
  s.eventListeners.map Prod.fst

/-- Evaluation of the bare identifier `event` in the guard
`if (!event)` of `off` (TasitAction.js line 38). The guard was evidently
meant to read the `eventListener` binding computed on the previous line; no
binding named `event` exists in the module scope, and neither Node.js nor
React Native defines a global `event`, so the identifier lookup throws a
ReferenceError (V8 wording) before the branch is taken. The result carries
the truthiness the guard would test had the lookup succeeded. -/
def evalBareEvent : Except JsError Bool :=
  .error ⟨"ReferenceError", "event is not defined"⟩

/-- Translation of `off`. The body past the guard is translated faithfully
from the source even though `evalBareEvent` makes it unreachable. -/
def off (s : SubState) (eventName : String) : StepResult SubState :=
  let eventListener := mapGet s.eventListeners eventName
  match evalBareEvent with
  | .error e => { state := s, effects := [], thrown := some e }
  | .ok truthy =>
    if !truthy then
      { state := s
        effects := [.warn ("A listener for event \x27" ++ eventName ++ "\x27 isn\x27t registered.")]
        thrown := none }
    else
      match eventListener with
      | none =>
        -- `const { listener } = eventListener` destructures `undefined`
        { state := s, effects := []
          thrown := some ⟨"TypeError", "Cannot destructure property \x27listener\x27 of \x27eventListener\x27 as it is undefined."⟩ }
      | some listener =>
        if eventName ≠ "error" then
          { state := ⟨mapDelete s.eventListeners eventName⟩
            effects := [.transportRemove (toEthersEventName eventName) listener]
            thrown := none }
        else
          { state := ⟨mapDelete s.eventListeners eventName⟩
            effects := []
            thrown := none }

/-- Iteration of `unsubscribe`'s `forEach` body: calls `off` on each key in
insertion order, propagating a thrown exception immediately (aborting the
iteration), as `Map.prototype.forEach` does. -/
def unsubscribeGo : SubState → List String → List Effect → StepResult SubState
  | s, [], effs => ⟨s, effs, none⟩
  | s, n :: rest, effs =>
    let r := off s n
    match r.thrown with
    | some e => ⟨r.state, effs ++ r.effects, some e⟩
    | none => unsubscribeGo r.state rest (effs ++ r.effects)

/-- Translation of `unsubscribe`. -/
def unsubscribe (s : SubState) : StepResult SubState :=
  unsubscribeGo s (subscribedEventNames s) []

/-- Translation of `_emitErrorEvent`. The `"error"` entry is only ever
written by `_addErrorListener`, which stores the raw caller callback; a
wrapper value under `"error"` is unreachable and modelled as a no-op call. -/
def emitErrorEvent (env : ListenerEnv) (s : SubState) (error : JsError)
    (eventName : String) : StepResult SubState :=
  match mapGet s.eventListeners "error" with
  | none =>
    { state := s
      effects := [.warn ("Error emission without listener: " ++ jsErrorToString error)]
      thrown := none }
  | some lv =>
    match lv with
    | .user id =>
      let message := Message.error error eventName
      { state := s
        effects := [.invokeListener id message]
        thrown := env id message }
    | _ => { state := s, effects := [], thrown := none }

/-- Translation of `_addErrorListener`. -/
def addErrorListener (s : SubState) (id : Nat) : StepResult SubState :=
  { state := ⟨mapSet s.eventListeners "error" (.user id)⟩
    effects := []
    thrown := none }

/-- Translation of `_addEventListener`: the generic registration path. -/
def addEventListener (s : SubState) (eventName : String) (lv : ListenerVal) :
    StepResult SubState :=
  if eventName = "error" then
    { state := s, effects := []
      thrown := some (mkError "Use _addErrorListener function to subscribe to an error event.") }
  else if eventName ∈ subscribedEventNames s then
    { state := s, effects := []
      thrown := some (mkError ("A listener for event \x27" ++ eventName ++ "\x27 is already registered.")) }
  else
    { state := ⟨mapSet s.eventListeners eventName lv⟩
      effects := [.transportOn (toEthersEventName eventName) lv]
      thrown := none }

end Subscription

/-- State of `TransactionSubscription`: the inherited registry plus the
`#txConfirmed` flag and the `#timeout` value. The `#txPromise`, `#tx` cache
and `#provider` are external references; their observable outcome per
notification (resolution plus `getTransactionReceipt`) is the handler's
`BlockInput`. -/
structure TxSubState where
  sub : SubState
  txConfirmed : Bool
  timeout : Nat
deriving DecidableEq, Repr

/-- Initial `TransactionSubscription` state: empty registry, `#txConfirmed`
initialised `false`, `#timeout` initialised from `config.events.timeout`. -/
def TxSubState.init (configEventsTimeout : Nat) : TxSubState :=
  ⟨⟨[]⟩, false, configEventsTimeout⟩

/-- The receipt object: the only field the handler reads is
`confirmations`. -/
structure Receipt where
  confirmations : Int
deriving DecidableEq, Repr

/-- Outcome of the awaits in one run of the confirmation `ethersListener`:
either the transaction handle resolved and `getTransactionReceipt` returned
a receipt (`receipt (some r)`) or `null` (`receipt none`), or one of the two
awaits rejected (`fetchError`). -/
inductive BlockInput
  | receipt (r : Option Receipt)
  | fetchError (e : JsError)
deriving DecidableEq, Repr

/-- The listener argument passed to `on` / `once`: a function (identified by
id) or a non-function value. -/
inductive ListenerArg
  | fn (id : Nat)
  | notFn
deriving DecidableEq, Repr

namespace TransactionSubscription

/-- Translation of `getEventsTimeout`. -/
def getEventsTimeout (s : TxSubState) : Nat := s.timeout

/-- Translation of `setEventsTimeout`. -/
def setEventsTimeout (s : TxSubState) (timeout : Nat) : TxSubState :=
  { s with timeout := timeout }

/-- Lifts a base-class operation on the registry into the subclass state. -/
def liftTx (s : TxSubState) (r : StepResult SubState) : StepResult TxSubState :=
  ⟨{ s with sub := r.state }, r.effects, r.thrown⟩

/-- Translation of the `ethersListener` closure built by
`#addConfirmationListener`, run on one `"block"` notification. `once` and
`lid` are the values captured at registration; `input` is the outcome of the
two awaits. The whole body runs in a `try` whose `catch` reports through the
error channel. -/
def confirmationHandler (env : ListenerEnv) (once : Bool) (lid : Nat)
    (s : TxSubState) (input : BlockInput) : StepResult TxSubState :=
  let tryResult : StepResult TxSubState :=
    -- `if (once) this.off(eventName)`
    let afterOff : StepResult TxSubState :=
      if once then liftTx s (Subscription.off s.sub "confirmation")
      else ⟨s, [], none⟩
    match afterOff.thrown with
    | some _ => afterOff
    | none =>
      match input with
      | .fetchError e => { afterOff with thrown := some e }
      | .receipt none =>
        -- `receipt === null`: displacement check, then `return`
        if afterOff.state.txConfirmed then
          let r := Subscription.emitErrorEvent env afterOff.state.sub
            (mkError "Your message has been included in an uncle block.") "confirmation"
          ⟨{ afterOff.state with sub := r.state }, afterOff.effects ++ r.effects, r.thrown⟩
        else
          { afterOff with thrown := none }
      | .receipt (some receipt) =>
        -- `this.#txConfirmed = true`, build the message, `await listener(message)`
        let s1 := { afterOff.state with txConfirmed := true }
        let message := Message.confirmation receipt.confirmations
        ⟨s1, afterOff.effects ++ [.invokeListener lid message], env lid message⟩
  match tryResult.thrown with
  | none => tryResult
  | some error =>
    let r := Subscription.emitErrorEvent env tryResult.state.sub
      (mkError ("Listener function with error: " ++ error.message)) "confirmation"
    ⟨{ tryResult.state with sub := r.state }, tryResult.effects ++ r.effects, r.thrown⟩

/-- Translation of the `setTimeout` callback armed by
`#addConfirmationListener`, run when the timer fires. It reads no
subscription state other than the registry inside `_emitErrorEvent`. -/
def timeoutCallback (env : ListenerEnv) (s : TxSubState) : StepResult TxSubState :=
  liftTx s (Subscription.emitErrorEvent env s.sub
    (mkError "Event confirmation reached timeout.") "confirmation")

/-- Translation of `#addConfirmationListener`'s registration part: stores the
wrapper through `_addEventListener` and, on success, arms the one-shot timer
with the current `getEventsTimeout()` value. -/
def addConfirmationListener (s : TxSubState) (lid : Nat) (once : Bool) :
    StepResult TxSubState :=
  let r := Subscription.addEventListener s.sub "confirmation"
    (.confirmationWrapper once lid)
  match r.thrown with
  | some e => ⟨{ s with sub := r.state }, r.effects, some e⟩
  | none =>
    ⟨{ s with sub := r.state }, r.effects ++ [.armTimer (getEventsTimeout s)], none⟩

/-- Translation of `#addListener` (TransactionSubscription), the body shared
by `on` (`once = false`) and `once` (`once = true`). -/
def addListener (s : TxSubState) (eventName : String) (listener : ListenerArg)
    (once : Bool) : StepResult TxSubState :=
  let triggers : List String := ["confirmation", "error"]
  if eventName ∉ triggers then
    ⟨s, [], some (mkError "Invalid listener trigger, use: [confirmation,error]")⟩
  else if eventName = "error" ∧ once then
    ⟨s, [], some (mkError "Use on() function to subscribe to an error event.")⟩
  else
    match listener with
    | .notFn => ⟨s, [], some (mkError "Cannot listen without a function")⟩
    | .fn lid =>
      if eventName = "error" then liftTx s (Subscription.addErrorListener s.sub lid)
      else addConfirmationListener s lid once

end TransactionSubscription

/-- State of `ContractSubscription`: the inherited registry plus the
contract's declared event-name set (the keys `n` with
`contract.interface.events[n] !== undefined`). The contract doubles as the
emitter, which is external. -/
structure ContractSubState where
  sub : SubState
  contractEvents : List String
deriving DecidableEq, Repr

namespace ContractSubscription

/-- Lifts a base-class operation on the registry into the subclass state. -/
def liftC (s : ContractSubState) (r : StepResult SubState) : StepResult ContractSubState :=
  ⟨{ s with sub := r.state }, r.effects, r.thrown⟩

/-- Translation of `#isEventValid`. -/
def isEventValid (s : ContractSubState) (eventName : String) : Prop :=
  eventName = "error" ∨ eventName ∈ s.contractEvents

instance (s : ContractSubState) (eventName : String) :
    Decidable (isEventValid s eventName) := by
  unfold isEventValid; infer_instance

/-- Reading the `args` property of the value popped off the callback's
argument array: the ethers.js Event metadata object carries the payload, a
primitive yields `undefined` (`none`), and `undefined.args` throws a
TypeError. -/
def getArgsProp : TransportArg → Except JsError (Option (List JsArg))
  | .eventObj args => .ok (some args)
  | .val _ => .ok none
  | .undef => .error ⟨"TypeError", "Cannot read property \x27args\x27 of undefined"⟩

/-- Translation of the `ethersListener` closure built by
`#addContractEventListener`, run when the transport fires the event with
argument list `args` (`args.pop()` takes the last element; an empty call
yields `undefined`). The whole body runs in a `try` whose `catch` reports
through the error channel. -/
def contractEventHandler (env : ListenerEnv) (eventName : String) (once : Bool)
    (lid : Nat) (s : ContractSubState) (args : List TransportArg) :
    StepResult ContractSubState :=
  let tryResult : StepResult ContractSubState :=
    let event := args.getLast?.getD .undef
    match getArgsProp event with
    | .error e => ⟨s, [], some e⟩
    | .ok eventArgs =>
      let message := Message.contractEvent eventArgs
      -- `if (once) this.off(eventName)`
      let afterOff : StepResult ContractSubState :=
        if once then liftC s (Subscription.off s.sub eventName)
        else ⟨s, [], none⟩
      match afterOff.thrown with
      | some _ => afterOff
      | none =>
        ⟨afterOff.state, afterOff.effects ++ [.invokeListener lid message],
          env lid message⟩
  match tryResult.thrown with
  | none => tryResult
  | some error =>
    let r := Subscription.emitErrorEvent env tryResult.state.sub
      (mkError ("Listener function with error: " ++ error.message)) eventName
    ⟨{ tryResult.state with sub := r.state }, tryResult.effects ++ r.effects, r.thrown⟩

/-- Translation of `#addContractEventListener`'s registration part. -/
def addContractEventListener (s : ContractSubState) (eventName : String)
    (lid : Nat) (once : Bool) : StepResult ContractSubState :=
  liftC s (Subscription.addEventListener s.sub eventName
    (.contractWrapper eventName once lid))

/-- Translation of `#addListener` (ContractSubscription), the body shared by
`on` and `once`. -/
def addListener (s : ContractSubState) (eventName : String) (lid : Nat)
    (once : Bool) : StepResult ContractSubState :=
  if ¬ isEventValid s eventName then
    ⟨s, [], some (mkError ("Event \x27" ++ eventName ++ "\x27 not found."))⟩
  else if eventName = "error" ∧ once then
    ⟨s, [], some (mkError "Use on() function to subscribe to an error event.")⟩
  else if eventName = "error" then
    liftC s (Subscription.addErrorListener s.sub lid)
  else
    addContractEventListener s eventName lid once

end ContractSubscription

/-- Listener environment in which every caller callback returns normally. -/
def envNone : ListenerEnv := fun _ _ => none

/-- The ReferenceError raised by the `if (!event)` guard of `off`. -/
def eventNotDefined : JsError := ⟨"ReferenceError", "event is not defined"⟩

/-- Spec section 7 groups the two registration-time rejections of
`TransactionSubscription#addListener` (unsupported event name, and the
once-on-error combination) under the error kind InvalidTriggerError. -/
def isInvalidTriggerError (e : JsError) : Prop :=
  e = mkError "Invalid listener trigger, use: [confirmation,error]" ∨
  e = mkError "Use on() function to subscribe to an error event."

instance (e : JsError) : Decidable (isInvalidTriggerError e) := by
  unfold isInvalidTriggerError; infer_instance

/-- Spec section 7: DuplicateListenerError is the rejection of re-registering
an active event name. -/
def isDuplicateListenerError (e : JsError) : Prop :=
  ∃ n, e = mkError ("A listener for event \x27" ++ n ++ "\x27 is already registered.")

/-- Whatever the argument, `off` throws the ReferenceError from its
`if (!event)` guard before doing anything observable. -/
theorem off_spec (s : SubState) (eventName : String) :
    Subscription.off s eventName = ⟨s, [], some eventNotDefined⟩ := rfl

/-- Emitting an error never mutates the registry. -/
theorem emitErrorEvent_state (env : ListenerEnv) (s : SubState) (e : JsError)
    (n : String) : (Subscription.emitErrorEvent env s e n).state = s := by
  unfold Subscription.emitErrorEvent
  cases hm : mapGet s.eventListeners "error" with
  | none => rfl
  | some lv => cases lv <;> rfl

/-- Setting a key makes it a member of the key list. -/
theorem mem_keys_mapSet (m : List (String × ListenerVal)) (k : String)
    (v : ListenerVal) : k ∈ (mapSet m k v).map Prod.fst := by
  induction m with
  | nil => simp [mapSet]
  | cons hd tl ih =>
    obtain ⟨k', v'⟩ := hd
    by_cases h : k' = k <;> simp [mapSet, h, ih]

/-- Lookup after setting the same key. -/
theorem mapGet_mapSet_self (m : List (String × ListenerVal)) (k : String)
    (v : ListenerVal) : mapGet (mapSet m k v) k = some v := by
  induction m with
  | nil => simp [mapSet, mapGet]
  | cons hd tl ih =>
    obtain ⟨k', v'⟩ := hd
    by_cases h : k' = k <;> simp [mapSet, mapGet, h, ih]

/-- C2: the claim says `off(n)` on an unregistered `n` never throws, logging
a warning and returning. In the code, the guard at TasitAction.js:38 reads
the unbound identifier `event` instead of the `eventListener` binding
computed on the previous line, so `off` throws a ReferenceError: here,
`off("foo")` on a subscription with no registered listeners throws
`ReferenceError: event is not defined`, produces no warning, and returns
nothing. -/
theorem off_unregistered_throws :
    Subscription.off ⟨[]⟩ "foo" = ⟨⟨[]⟩, [], some eventNotDefined⟩ ∧
    eventNotDefined ≠ mkError "A listener for event \x27foo\x27 isn\x27t registered." := by
  constructor
  · rfl
  · decide

/-- C3: the claim says `unsubscribe()` terminates normally in any state and
leaves `subscribedEventNames()` empty. Because `off` throws a ReferenceError
from its `if (!event)` guard (TasitAction.js:38), `unsubscribe()` on a
subscription with one registered listener propagates that exception from the
first `forEach` iteration and leaves the listener registered. -/
theorem unsubscribe_throws_nonempty :
    Subscription.unsubscribe ⟨[("confirmation", .confirmationWrapper true 0)]⟩ =
      ⟨⟨[("confirmation", .confirmationWrapper true 0)]⟩, [], some eventNotDefined⟩ ∧
    Subscription.subscribedEventNames
      (Subscription.unsubscribe ⟨[("confirmation", .confirmationWrapper true 0)]⟩).state =
      ["confirmation"] := by
  constructor <;> rfl

/-- C1: the claim says that for a `once`-registered confirmation listener
whose transaction is mined with receipt `{confirmations: 1}` on the first
block notification, the listener is invoked exactly once with
`{data: {confirmations: 1}}` and then detached. In the code the handler
first runs `if (once) this.off(eventName)`, and `off` throws a
ReferenceError from its `if (!event)` guard (TasitAction.js:38); the `catch`
reports a listener-execution error instead, so the confirmation listener is
never invoked (no `Effect.invokeListener` occurs) and stays registered:
`subscribedEventNames()` still contains `"confirmation"`. -/
theorem once_confirmation_listener_never_fires :
    TransactionSubscription.confirmationHandler envNone true 0
        ⟨⟨[("confirmation", .confirmationWrapper true 0)]⟩, false, 2000⟩
        (.receipt (some ⟨1⟩)) =
      ⟨⟨⟨[("confirmation", .confirmationWrapper true 0)]⟩, false, 2000⟩,
        [.warn "Error emission without listener: Error: Listener function with error: event is not defined"],
        none⟩ ∧
    Subscription.subscribedEventNames
      (TransactionSubscription.confirmationHandler envNone true 0
        ⟨⟨[("confirmation", .confirmationWrapper true 0)]⟩, false, 2000⟩
        (.receipt (some ⟨1⟩))).state.sub = ["confirmation"] := by
  constructor <;> rfl

/-- C7: registering a listener for an event name other than `"error"`
through the generic registration path (`_addEventListener`) a second time
without an intervening `off` throws
`A listener for event <name> is already registered.` (spec section 7 error
kind DuplicateListenerError), leaves the registry exactly as the second call
found it, and the first registration remains in place. -/
theorem duplicate_registration_rejected (s : SubState) (n : String)
    (lv lv' : ListenerVal) (hn : n ≠ "error")
    (h1 : (Subscription.addEventListener s n lv).thrown = none) :
    (Subscription.addEventListener
        (Subscription.addEventListener s n lv).state n lv').thrown =
      some (mkError ("A listener for event \x27" ++ n ++ "\x27 is already registered.")) ∧
    isDuplicateListenerError
      (mkError ("A listener for event \x27" ++ n ++ "\x27 is already registered.")) ∧
    (Subscription.addEventListener
        (Subscription.addEventListener s n lv).state n lv').state =
      (Subscription.addEventListener s n lv).state ∧
    mapGet (Subscription.addEventListener
        (Subscription.addEventListener s n lv).state n lv').state.eventListeners n =
      some lv := by
  unfold Subscription.addEventListener at h1 ⊢
  rw [if_neg hn] at h1 ⊢
  by_cases hm : n ∈ Subscription.subscribedEventNames s
  · rw [if_pos hm] at h1
    simp at h1
  · rw [if_neg hm] at h1 ⊢
    have hmem : n ∈ Subscription.subscribedEventNames
        (⟨mapSet s.eventListeners n lv⟩ : SubState) := by
      simpa [Subscription.subscribedEventNames] using mem_keys_mapSet s.eventListeners n lv
    rw [if_neg hn, if_pos hmem]
    refine ⟨rfl, ⟨n, rfl⟩, rfl, ?_⟩
    simpa using mapGet_mapSet_self s.eventListeners n lv

/-- Witness for C7 at a concrete input: registering id 1 for `"transfer"`
twice on an initially empty registry. -/
theorem duplicate_registration_rejected_witness :
    (Subscription.addEventListener
        (Subscription.addEventListener ⟨[]⟩ "transfer" (.user 1)).state
        "transfer" (.user 2)).thrown =
      some (mkError "A listener for event \x27transfer\x27 is already registered.") :=
  (duplicate_registration_rejected ⟨[]⟩ "transfer" (.user 1) (.user 2)
    (by decide) rfl).1

/-- C8: `TransactionSubscription#addListener` (the body of both `on` and
`once`) rejects every event name other than `"confirmation"` and `"error"`,
and rejects `"error"` combined with `once`, throwing synchronously with a
spec-section-7 InvalidTriggerError and leaving the state unchanged with no
effects (nothing registered). -/
theorem tx_addListener_invalid_triggers (s : TxSubState) (n : String)
    (l : ListenerArg) (once : Bool)
    (hn1 : n ≠ "confirmation") (hn2 : n ≠ "error") :
    TransactionSubscription.addListener s n l once =
      ⟨s, [], some (mkError "Invalid listener trigger, use: [confirmation,error]")⟩ ∧
    isInvalidTriggerError (mkError "Invalid listener trigger, use: [confirmation,error]") ∧
    TransactionSubscription.addListener s "error" l true =
      ⟨s, [], some (mkError "Use on() function to subscribe to an error event.")⟩ ∧
    isInvalidTriggerError (mkError "Use on() function to subscribe to an error event.") := by
  refine ⟨?_, Or.inl rfl, ?_, Or.inr rfl⟩
  · unfold TransactionSubscription.addListener
    simp [hn1, hn2]
  · unfold TransactionSubscription.addListener
    simp

/-- Witness for C8 at a concrete input: `once("block", listener)` on a fresh
transaction subscription is rejected as an invalid trigger. -/
theorem tx_addListener_invalid_triggers_witness :
    TransactionSubscription.addListener (TxSubState.init 2000) "block" (.fn 0) true =
      ⟨TxSubState.init 2000, [],
        some (mkError "Invalid listener trigger, use: [confirmation,error]")⟩ :=
  (tx_addListener_invalid_triggers (TxSubState.init 2000) "block" (.fn 0) true
    (by decide) (by decide)).1

/-- C4: registering a confirmation listener arms a one-shot timer for the
current `getEventsTimeout()` value, and when the timer fires its callback
unconditionally emits `Event confirmation reached timeout.` through the
error channel: the conclusion holds for every state `s`, in particular with
`txConfirmed = true` (confirmation already succeeded), and the callback's
effects are identical whether `txConfirmed` is `true` or `false` — no code
path cancels the timer on success. -/
theorem timeout_armed_and_fires_unconditionally (s : TxSubState)
    (env : ListenerEnv) (lid eid : Nat) (once : Bool)
    (hconf : "confirmation" ∉ Subscription.subscribedEventNames s.sub)
    (herr : mapGet s.sub.eventListeners "error" = some (.user eid))
    (henv : env eid (Message.error (mkError "Event confirmation reached timeout.")
      "confirmation") = none) :
    (TransactionSubscription.addListener s "confirmation" (.fn lid) once).effects =
      [.transportOn "block" (.confirmationWrapper once lid),
       .armTimer (TransactionSubscription.getEventsTimeout s)] ∧
    TransactionSubscription.timeoutCallback env s =
      ⟨s, [.invokeListener eid (Message.error
        (mkError "Event confirmation reached timeout.") "confirmation")], none⟩ ∧
    (TransactionSubscription.timeoutCallback env { s with txConfirmed := true }).effects =
      (TransactionSubscription.timeoutCallback env { s with txConfirmed := false }).effects := by
  refine ⟨?_, ?_, rfl⟩
  · unfold TransactionSubscription.addListener
      TransactionSubscription.addConfirmationListener Subscription.addEventListener
    simp [hconf, TransactionSubscription.getEventsTimeout,
      Subscription.toEthersEventName]
  · unfold TransactionSubscription.timeoutCallback TransactionSubscription.liftTx
      Subscription.emitErrorEvent
    rw [herr]
    simp [henv]

/-- Witness for C4 at a concrete input: an error listener is registered, the
transaction is already confirmed (`txConfirmed = true`), and the timer
callback still delivers the timeout error to the error listener. -/
theorem timeout_armed_and_fires_unconditionally_witness :
    TransactionSubscription.timeoutCallback envNone ⟨⟨[("error", .user 1)]⟩, true, 2000⟩ =
      ⟨⟨⟨[("error", .user 1)]⟩, true, 2000⟩,
        [.invokeListener 1 (Message.error
          (mkError "Event confirmation reached timeout.") "confirmation")], none⟩ :=
  (timeout_armed_and_fires_unconditionally ⟨⟨[("error", .user 1)]⟩, true, 2000⟩
    envNone 0 1 false (by decide) (by decide) rfl).2.1

/-- C5: with an error listener registered and a confirmation handler whose
captured `once` is `false`, a block notification that finds no receipt
(`getTransactionReceipt` returns `null`) after `txConfirmed` became `true`
emits the displacement error `Your message has been included in an uncle
block.` through the error channel (and that message differs from the timeout
message) without throwing anything to the transport; when `txConfirmed` is
still `false`, the handler returns with no error emitted and no listener
invocation. The final conjunct justifies `once = false`: a handler captured
with `once = true` never changes `txConfirmed` (its `this.off` call throws
first), so `txConfirmed = true` is reachable only through `on`-registered
handlers. -/
theorem displacement_error_after_confirmation (s : TxSubState)
    (env : ListenerEnv) (lid eid : Nat)
    (herr : mapGet s.sub.eventListeners "error" = some (.user eid))
    (henv : env eid (Message.error
      (mkError "Your message has been included in an uncle block.")
      "confirmation") = none) :
    (s.txConfirmed = true →
      TransactionSubscription.confirmationHandler env false lid s (.receipt none) =
        ⟨s, [.invokeListener eid (Message.error
          (mkError "Your message has been included in an uncle block.")
          "confirmation")], none⟩) ∧
    (s.txConfirmed = false →
      TransactionSubscription.confirmationHandler env false lid s (.receipt none) =
        ⟨s, [], none⟩) ∧
    mkError "Your message has been included in an uncle block." ≠
      mkError "Event confirmation reached timeout." ∧
    (∀ (s' : TxSubState) (input : BlockInput) (l : Nat) (e : ListenerEnv),
      (TransactionSubscription.confirmationHandler e true l s' input).state.txConfirmed =
        s'.txConfirmed) := by
  refine ⟨?_, ?_, by decide, ?_⟩
  · intro h
    unfold TransactionSubscription.confirmationHandler Subscription.emitErrorEvent
    simp [h, herr, henv]
    rw [← h]
  · intro h
    unfold TransactionSubscription.confirmationHandler
    simp [h]
  · intro s' input l e
    unfold TransactionSubscription.confirmationHandler TransactionSubscription.liftTx
    simp [off_spec]

/-- Witness for C5 at a concrete input: confirmed transaction, error
listener id 1, subsequent notification without a receipt. -/
theorem displacement_error_after_confirmation_witness :
    TransactionSubscription.confirmationHandler envNone false 0
        ⟨⟨[("confirmation", .confirmationWrapper false 0), ("error", .user 1)]⟩, true, 2000⟩
        (.receipt none) =
      ⟨⟨⟨[("confirmation", .confirmationWrapper false 0), ("error", .user 1)]⟩, true, 2000⟩,
        [.invokeListener 1 (Message.error
          (mkError "Your message has been included in an uncle block.")
          "confirmation")], none⟩ :=
  (displacement_error_after_confirmation
    ⟨⟨[("confirmation", .confirmationWrapper false 0), ("error", .user 1)]⟩, true, 2000⟩
    envNone 0 1 (by decide) rfl).1 rfl

/-- C6: once `txConfirmed` is `true` it stays `true`: every run of the
confirmation handler — any captured `once` flag, any notification outcome
(receipt, `null` receipt, rejected await), any listener behaviour including
throwing listeners and the `catch` path — leaves it `true`; its only
assignment in the module is `this.#txConfirmed = true`. The remaining
operations (`timeoutCallback`, `#addListener`, `setEventsTimeout`; the
inherited `off` / `unsubscribe` / `_emitErrorEvent` act on the registry
component alone) never write it at all. -/
theorem txConfirmed_sticky (env : ListenerEnv) (once : Bool) (lid : Nat)
    (s : TxSubState) (input : BlockInput) (h : s.txConfirmed = true) :
    (TransactionSubscription.confirmationHandler env once lid s input).state.txConfirmed = true ∧
    (TransactionSubscription.timeoutCallback env s).state.txConfirmed = true ∧
    (∀ (n : String) (l : ListenerArg) (o : Bool),
      (TransactionSubscription.addListener s n l o).state.txConfirmed = true) ∧
    (∀ t, (TransactionSubscription.setEventsTimeout s t).txConfirmed = true) := by
  refine ⟨?_, ?_, ?_, fun t => h⟩
  · unfold TransactionSubscription.confirmationHandler TransactionSubscription.liftTx
    cases once <;> cases input <;>
      simp only [off_spec, Bool.false_eq_true, if_false, if_true, reduceIte] <;>
      (repeat' split) <;> simp_all
  · exact h
  · intro n l o
    unfold TransactionSubscription.addListener
      TransactionSubscription.addConfirmationListener TransactionSubscription.liftTx
    (repeat' split) <;> simp_all <;> (repeat' split) <;> simp_all

/-- Witness for C6 at a concrete input: a confirmed subscription stays
confirmed through a displacing notification. -/
theorem txConfirmed_sticky_witness :
    (TransactionSubscription.confirmationHandler envNone false 0
      ⟨⟨[]⟩, true, 2000⟩ (.receipt none)).state.txConfirmed = true :=
  (txConfirmed_sticky envNone false 0 ⟨⟨[]⟩, true, 2000⟩ (.receipt none) rfl).1

/-- C9, as amended: for a listener registered via `on` (captured
`once = false`), when the transport fires a contract event with positional
arguments followed by the trailing ethers.js Event metadata object, the
handler built by `#addContractEventListener` pops the metadata object off
the argument array, extracts its `args` payload in declared order, and
invokes the listener exactly once with the normalized message
`{data: {args}}` — no other effect, no exception, no state change. The
original claim, quantifying over every registration, fails for reachable
`once`-registrations (see `contract_event_once_skips_listener`). -/
theorem contract_event_normalized_delivery (s : ContractSubState)
    (env : ListenerEnv) (n : String) (lid : Nat)
    (positional : List TransportArg) (meta : List JsArg)
    (henv : env lid (Message.contractEvent (some meta)) = none) :
    ContractSubscription.contractEventHandler env n false lid s
        (positional ++ [.eventObj meta]) =
      ⟨s, [.invokeListener lid (Message.contractEvent (some meta))], none⟩ := by
  unfold ContractSubscription.contractEventHandler
  rw [List.getLast?_append_cons]
  simp [ContractSubscription.getArgsProp, henv]

/-- Witness for C9 at a concrete input: a `Transfer(address from, address to,
uint256 value)`-style log with three positional arguments and the trailing
metadata object carrying the same values in `args`. -/
theorem contract_event_normalized_delivery_witness :
    ContractSubscription.contractEventHandler envNone "Transfer" false 7
        ⟨⟨[("Transfer", .contractWrapper "Transfer" false 7)]⟩, ["Transfer"]⟩
        [.val (.str "0xa"), .val (.str "0xb"), .val (.num 10),
         .eventObj [.str "0xa", .str "0xb", .num 10]] =
      ⟨⟨⟨[("Transfer", .contractWrapper "Transfer" false 7)]⟩, ["Transfer"]⟩,
        [.invokeListener 7 (Message.contractEvent
          (some [.str "0xa", .str "0xb", .num 10]))], none⟩ :=
  contract_event_normalized_delivery
    ⟨⟨[("Transfer", .contractWrapper "Transfer" false 7)]⟩, ["Transfer"]⟩
    envNone "Transfer" 7
    [.val (.str "0xa"), .val (.str "0xb"), .val (.num 10)]
    [.str "0xa", .str "0xb", .num 10] rfl

/-- C9 counterexample: the original claim also covers a listener registered
via `once`, which registers fine, but there the handler — after popping the
metadata object and building the message — runs `if (once) this.off(eventName)`,
and `off` throws `ReferenceError: event is not defined` from its unbound
`event` guard (TasitAction.js:38); the `catch` reports a listener-execution
error, so the listener is never invoked with `{data: {args}}` (it also stays
registered). Concretely: a `once`-registered `"Transfer"` listener receiving
a one-argument log produces only the no-error-listener warning, not the
claimed invocation. -/
theorem contract_event_once_skips_listener :
    ContractSubscription.contractEventHandler envNone "Transfer" true 7
        ⟨⟨[("Transfer", .contractWrapper "Transfer" true 7)]⟩, ["Transfer"]⟩
        [.val (.str "0xa"), .eventObj [.str "0xa"]] =
      ⟨⟨⟨[("Transfer", .contractWrapper "Transfer" true 7)]⟩, ["Transfer"]⟩,
        [.warn "Error emission without listener: Error: Listener function with error: event is not defined"],
        none⟩ ∧
    Effect.invokeListener 7 (Message.contractEvent (some [.str "0xa"])) ∉
      (ContractSubscription.contractEventHandler envNone "Transfer" true 7
        ⟨⟨[("Transfer", .contractWrapper "Transfer" true 7)]⟩, ["Transfer"]⟩
        [.val (.str "0xa"), .eventObj [.str "0xa"]]).effects := by
  refine ⟨by rfl, by decide⟩

/-- C10: `_emitErrorEvent` calls the registered error listener directly,
with no surrounding try/catch, so a throwing error listener propagates its
exception to `_emitErrorEvent`'s caller: the first conjunct shows the
exception escaping `_emitErrorEvent` itself, the second shows it escaping
the confirmation handler entirely — the handler's `catch` block calls
`_emitErrorEvent`, whose exception is outside the `try`, and therefore
reaches the transport callback. -/
theorem error_listener_exception_propagates (s : SubState) (env : ListenerEnv)
    (err : JsError) (en : String) (eid : Nat) (ex ex2 : JsError)
    (ts : TxSubState) (lid : Nat) (input : BlockInput)
    (h1 : mapGet s.eventListeners "error" = some (.user eid))
    (h2 : env eid (Message.error err en) = some ex)
    (hts : ts.sub = s)
    (h3 : env eid (Message.error
      (mkError "Listener function with error: event is not defined")
      "confirmation") = some ex2) :
    Subscription.emitErrorEvent env s err en =
      ⟨s, [.invokeListener eid (Message.error err en)], some ex⟩ ∧
    (TransactionSubscription.confirmationHandler env true lid ts input).thrown =
      some ex2 := by
  constructor
  · unfold Subscription.emitErrorEvent
    rw [h1]
    simp [h2]
  · unfold TransactionSubscription.confirmationHandler TransactionSubscription.liftTx
      Subscription.emitErrorEvent
    simp [off_spec, hts, h1, eventNotDefined, h3]

/-- Witness for C10 at a concrete input: error listener id 1 throws; the
exception escapes both `_emitErrorEvent` and a full confirmation-handler
run. -/
theorem error_listener_exception_propagates_witness :
    Subscription.emitErrorEvent
        (fun i _ => if i = 1 then some (mkError "boom") else none)
        ⟨[("error", .user 1)]⟩ (mkError "oops") "confirmation" =
      ⟨⟨[("error", .user 1)]⟩,
        [.invokeListener 1 (Message.error (mkError "oops") "confirmation")],
        some (mkError "boom")⟩ :=
  (error_listener_exception_propagates ⟨[("error", .user 1)]⟩
    (fun i _ => if i = 1 then some (mkError "boom") else none)
    (mkError "oops") "confirmation" 1 (mkError "boom") (mkError "boom")
    ⟨⟨[("error", .user 1)]⟩, false, 2000⟩ 0 (.receipt none)
    (by decide) rfl rfl rfl).1
